import Mathlib

/-!
# Shallow embedding of the `binary_oracle` Solana program

This file embeds `programs/oracle-contracts/src/lib.rs` (Anchor program
`binary_oracle`) in Lean 4 and proves properties of its commit-reveal
oracle round state machine.

Modelling conventions:
* Pubkeys are abstracted as `Nat`.
* Lamport balances are `Nat` values below `2^64`; the program's raw
  `-=` / `+=` on `u64` lamports is modelled by explicit wrapping
  arithmetic `wsub` / `wadd` (mod `2^64`), since the Rust code performs
  the subtraction with no balance check.
* The SHA-256 hash used by the program is an abstract parameter
  `H : List Nat → List Nat` over byte lists; the hashed preimage
  `[vote as u8] ‖ nonce` is built by `hashInput`.
* Fallible instructions return `Except ErrorCode _`, mirroring
  `Result<()>` plus the accounts each instruction mutates.
* In `resolve`, the caller-supplied `remaining_accounts` become an
  explicit list of `NodeAccount`s.  `Account::<Node>::try_from` checks
  only program ownership and the account discriminator — i.e. that the
  account deserializes as *some* `Node` of this program — so the list
  models the candidates after that deserialization has succeeded; the
  program performs no check tying a candidate to the round.
-/

/-- Phases of an oracle round (`enum Phase` in the source). -/
inductive Phase where
  | Precommit
  | Commit
  | Reveal
  | Complete
deriving DecidableEq, Repr

/-- `enum ErrorCode` of the source program. -/
inductive ErrorCode where
  | InvalidPhase
  | RevealPhaseClosed
  | InvalidReveal
  | InvalidCollusion
  | RevealPhaseNotClosed
  | NotCommitted
  | AlreadyCommitted
  | AlreadyRevealed
  | InvalidPhaseForJoining
  | MaxNodesReached
  | UnauthorizedAccess
deriving DecidableEq, Repr

/-- The `Oracle` account data (`struct Oracle` in the source). -/
structure Oracle where
  authority : Nat
  collateral : Nat
  is_resolved : Bool
  resolution_bit : Bool
  phase : Phase
  reveal_end_time : Int
  reveal_duration : Int
  max_nodes : Nat
  total_nodes : Nat
  committed_nodes : Nat
deriving DecidableEq, Repr

/-- The `Node` account data (`struct Node` in the source). -/
structure Node where
  authority : Nat
  vote_hash : Option (List Nat)
  vote : Option Bool
  slashed : Bool
deriving DecidableEq, Repr

/-- `2^64`, the modulus of `u64` lamport arithmetic. -/
def U64MOD : Nat := 18446744073709551616

/-- Wrapping `u64` addition (`+=` on lamports in the source). -/
def wadd (a b : Nat) : Nat := (a + b) % U64MOD

/-- Wrapping `u64` subtraction (`-=` on lamports in the source): the
program subtracts with no balance check, so `a < b` wraps around. -/
def wsub (a b : Nat) : Nat := (a + (U64MOD - b % U64MOD)) % U64MOD

/-- `initialize(collateral, reveal_duration, max_nodes)` of the source
(renamed here because `initialize` is reserved in Lean): creates the
`Oracle` account owned by the caller.  The source body always returns
`Ok(())`, so the embedding returns the created account directly. -/
def init_oracle (authorityKey : Nat) (collateral : Nat)
    (reveal_duration : Int) (max_nodes : Nat) : Oracle :=
  { authority := authorityKey
    collateral := collateral
    is_resolved := false
    resolution_bit := false
    phase := Phase.Precommit
    reveal_end_time := 0
    reveal_duration := reveal_duration
    max_nodes := max_nodes
    total_nodes := 0
    committed_nodes := 0 }

/-- Accounts as left by a successful `join_network`. -/
structure JoinOutcome where
  oracle : Oracle
  oracleLamports : Nat
  node : Node
  authorityLamports : Nat
deriving DecidableEq, Repr

/-- `join_network`: requires phase `Precommit` or `Commit` and
`total_nodes < max_nodes`, then moves `collateral` lamports from the
joining authority's balance to the oracle account (raw unchecked `u64`
arithmetic in the source), creates the `Node` record and increments
`total_nodes`. -/
def join_network (oracle : Oracle) (oracleLamports : Nat)
    (nodeAuthorityKey : Nat) (authorityLamports : Nat) :
    Except ErrorCode JoinOutcome :=
  if oracle.phase = Phase.Precommit ∨ oracle.phase = Phase.Commit then
    if oracle.total_nodes < oracle.max_nodes then
      .ok { oracle := { oracle with total_nodes := oracle.total_nodes + 1 }
            oracleLamports := wadd oracleLamports oracle.collateral
            node := { authority := nodeAuthorityKey
                      vote_hash := none
                      vote := none
                      slashed := false }
            authorityLamports := wsub authorityLamports oracle.collateral }
    else .error .MaxNodesReached
  else .error .InvalidPhaseForJoining

/-- `start_request`: authority-only transition `Precommit → Commit`,
resetting `committed_nodes`. -/
def start_request (oracle : Oracle) (callerKey : Nat) :
    Except ErrorCode Oracle :=
  if oracle.phase = Phase.Precommit then
    if callerKey = oracle.authority then
      .ok { oracle with phase := Phase.Commit, committed_nodes := 0 }
    else .error .UnauthorizedAccess
  else .error .InvalidPhase

/-- `commit(vote_hash)`: requires phase `Commit` and no prior
commitment; stores the hash, increments `committed_nodes`, and when
every joined node has committed advances to `Reveal`, setting
`reveal_end_time = now + reveal_duration`. -/
def commit (oracle : Oracle) (node : Node) (vote_hash : List Nat)
    (now : Int) : Except ErrorCode (Oracle × Node) :=
  if oracle.phase = Phase.Commit then
    if node.vote_hash.isSome then .error .AlreadyCommitted
    else
      let node := { node with vote_hash := some vote_hash }
      let oracle := { oracle with
                      committed_nodes := oracle.committed_nodes + 1 }
      let oracle :=
        if oracle.committed_nodes = oracle.total_nodes then
          { oracle with phase := Phase.Reveal
                        reveal_end_time := now + oracle.reveal_duration }
        else oracle
      .ok (oracle, node)
  else .error .InvalidPhase

/-- The hashed preimage `[vote as u8] ‖ nonce` of the source's
`hash(&[&[vote as u8], &nonce[..]].concat())`. -/
def hashInput (vote : Bool) (nonce : List Nat) : List Nat :=
  (if vote then 1 else 0) :: nonce

/-- `reveal(vote, nonce)`: requires phase `Reveal`, `now` at or before
`reveal_end_time` (inclusive deadline), a stored commitment, and no
prior reveal; recomputes `H([vote as u8] ‖ nonce)` and fails with
`InvalidReveal` unless it equals the stored commitment byte-for-byte,
otherwise records `vote`.  Only the `Node` account is mutated. -/
def reveal (H : List Nat → List Nat) (oracle : Oracle) (node : Node)
    (vote : Bool) (nonce : List Nat) (now : Int) :
    Except ErrorCode Node :=
  if oracle.phase = Phase.Reveal then
    if now ≤ oracle.reveal_end_time then
      match node.vote_hash with
      | none => .error .NotCommitted
      | some stored =>
        if node.vote.isSome then .error .AlreadyRevealed
        else
          if H (hashInput vote nonce) = stored then
            .ok { node with vote := some vote }
          else .error .InvalidReveal
    else .error .RevealPhaseClosed
  else .error .InvalidPhase

/-- The `NodeSlashed` event emitted by `slash_colluding`. -/
structure NodeSlashed where
  oracle : Nat
  slashed_node : Nat
deriving DecidableEq, Repr

/-- Accounts and event as left by a successful `slash_colluding`. -/
structure SlashOutcome where
  node : Node
  nodeLamports : Nat
  oracleLamports : Nat
  event : NodeSlashed
deriving DecidableEq, Repr

/-- `slash_colluding(vote, nonce)`: requires phase `Commit`, a stored
commitment on the target node, and `H([vote as u8] ‖ nonce)` equal to
it; then moves `collateral` lamports from the target node account to
the oracle account (raw unchecked `u64` arithmetic), marks the node
`slashed`, and emits `NodeSlashed`.  The source never checks whether
the target is already slashed. -/
def slash_colluding (H : List Nat → List Nat)
    (oracle : Oracle) (oracleKey : Nat) (oracleLamports : Nat)
    (node : Node) (nodeKey : Nat) (nodeLamports : Nat)
    (vote : Bool) (nonce : List Nat) : Except ErrorCode SlashOutcome :=
  if oracle.phase = Phase.Commit then
    match node.vote_hash with
    | none => .error .NotCommitted
    | some stored =>
      if H (hashInput vote nonce) = stored then
        .ok { node := { node with slashed := true }
              nodeLamports := wsub nodeLamports oracle.collateral
              oracleLamports := wadd oracleLamports oracle.collateral
              event := { oracle := oracleKey, slashed_node := nodeKey } }
      else .error .InvalidCollusion
  else .error .InvalidPhase

/-- A candidate account handed to `resolve` through
`ctx.remaining_accounts`, after `Account::<Node>::try_from` has
succeeded: the deserialized `Node` data plus the account's lamports. -/
structure NodeAccount where
  node : Node
  lamports : Nat
deriving DecidableEq, Repr

/-- `true_votes` of the first `resolve` loop: non-slashed candidates
with `vote == Some(true)`. -/
def countTrueVotes (cs : List NodeAccount) : Nat :=
  (cs.filter (fun a => !a.node.slashed && a.node.vote == some true)).length

/-- `false_votes` of the first `resolve` loop: non-slashed candidates
with `vote == Some(false)`. -/
def countFalseVotes (cs : List NodeAccount) : Nat :=
  (cs.filter (fun a => !a.node.slashed && a.node.vote == some false)).length

/-- `total_nodes` of the first `resolve` loop: non-slashed candidates. -/
def countActive (cs : List NodeAccount) : Nat :=
  (cs.filter (fun a => !a.node.slashed)).length

/-- The second `resolve` loop's per-account effect: a non-slashed
candidate whose vote equals the resolution bit is credited
`reward_per_node` lamports; every other account is left untouched. -/
def payNode (rb : Bool) (reward : Nat) (a : NodeAccount) : NodeAccount :=
  if !a.node.slashed && a.node.vote == some rb then
    { a with lamports := wadd a.lamports reward }
  else a

/-- Accounts as left by a successful `resolve`, together with the local
`reward_per_node` and `consensus_nodes` values it computed. -/
structure ResolveOutcome where
  oracle : Oracle
  oracleLamports : Nat
  nodes : List NodeAccount
  reward_per_node : Nat
  consensus_nodes : Nat
deriving DecidableEq, Repr

/-- The straight-line body of `resolve` after its two `require!`
checks: tally the candidates, set `resolution_bit = true_votes >
false_votes`, compute `reward_per_node = collateral * total_nodes /
consensus_nodes` (u64 multiply, hence mod `2^64`) and pay every
non-slashed candidate voting with the majority, debiting the oracle
account once per payment; finally the phase becomes `Complete`. -/
def resolveBody (oracle : Oracle) (oracleLamports : Nat)
    (candidates : List NodeAccount) : ResolveOutcome :=
  let true_votes := countTrueVotes candidates
  let false_votes := countFalseVotes candidates
  let total_nodes := countActive candidates
  let resolution_bit : Bool := decide (false_votes < true_votes)
  let consensus_nodes := if resolution_bit then true_votes else false_votes
  let reward_per_node :=
    if 0 < consensus_nodes then
      oracle.collateral * total_nodes % U64MOD / consensus_nodes
    else 0
  { oracle := { oracle with
                is_resolved := true
                resolution_bit := resolution_bit
                phase := Phase.Complete }
    oracleLamports :=
      candidates.foldl
        (fun l a =>
          if !a.node.slashed && a.node.vote == some resolution_bit then
            wsub l reward_per_node
          else l)
        oracleLamports
    nodes := candidates.map (payNode resolution_bit reward_per_node)
    reward_per_node := reward_per_node
    consensus_nodes := consensus_nodes }

/-- `resolve`: requires phase `Reveal` and `now` strictly past
`reveal_end_time`, then runs `resolveBody` on the caller-supplied
candidate accounts. -/
def resolve (oracle : Oracle) (oracleLamports : Nat)
    (candidates : List NodeAccount) (now : Int) :
    Except ErrorCode ResolveOutcome :=
  if oracle.phase = Phase.Reveal then
    if oracle.reveal_end_time < now then
      .ok (resolveBody oracle oracleLamports candidates)
    else .error .RevealPhaseNotClosed
  else .error .InvalidPhase

/-- A concrete stand-in for the abstract hash when a trace needs an
executable one (the identity on byte lists). -/
def Hid : List Nat → List Nat := fun l => l

example : wsub 0 1000000 = 18446744073708551616 := by decide
example : wsub 5 3 = 2 := by decide
example : wadd 3 4 = 7 := by decide

/-!
## Concrete execution traces

Each trace below drives the embedded instructions from a freshly
created oracle, so every state appearing in a theorem about them is
reachable through the program itself.  Node accounts are created with
the balance the program itself gives them: the program moves the
collateral to the oracle account and leaves the node account's own
balance untouched (on chain it holds only the rent the payer funded,
which is unrelated to the collateral); the traces use `0` for it.
-/

/-- Scenario of §8 of the spec: three nodes join with collateral
`1_000_000`, all commit the vote `true` under distinct nonces, all
reveal, and the round is resolved after the deadline. -/
def threeHonestTrace : Except ErrorCode ResolveOutcome := do
  let o0 := init_oracle 100 1000000 3600 3
  let j1 ← join_network o0 0 201 5000000
  let j2 ← join_network j1.oracle j1.oracleLamports 202 5000000
  let j3 ← join_network j2.oracle j2.oracleLamports 203 5000000
  let o1 ← start_request j3.oracle 100
  let (o2, n1) ← commit o1 j1.node (Hid (hashInput true [1])) 0
  let (o3, n2) ← commit o2 j2.node (Hid (hashInput true [2])) 0
  let (o4, n3) ← commit o3 j3.node (Hid (hashInput true [3])) 0
  let n1 ← reveal Hid o4 n1 true [1] 5
  let n2 ← reveal Hid o4 n2 true [2] 5
  let n3 ← reveal Hid o4 n3 true [3] 5
  resolve o4 j3.oracleLamports [⟨n1, 0⟩, ⟨n2, 0⟩, ⟨n3, 0⟩] 3601

/-- Scenario of §8 of the spec: node A (key 201) commits and reveals,
node B (key 202) commits and never reveals; the round is resolved
after the deadline with both node accounts as candidates. -/
def nonRevealTrace : Except ErrorCode ResolveOutcome := do
  let o0 := init_oracle 100 1000000 3600 2
  let jA ← join_network o0 0 201 5000000
  let jB ← join_network jA.oracle jA.oracleLamports 202 5000000
  let o1 ← start_request jB.oracle 100
  let (o2, nA) ← commit o1 jA.node (Hid (hashInput true [1])) 0
  let (o3, nB) ← commit o2 jB.node (Hid (hashInput true [2])) 0
  let nA ← reveal Hid o3 nA true [1] 5
  resolve o3 jB.oracleLamports [⟨nA, 0⟩, ⟨nB, 0⟩] 3601

/-- A node is slashed during the `Commit` phase (with a valid collusion
proof) and afterwards, in the `Reveal` phase and within the deadline,
calls `reveal` with its correct `(vote, nonce)`.  The trace returns the
result of that reveal. -/
def slashedRevealTrace : Except ErrorCode Node := do
  let o0 := init_oracle 100 1000000 3600 2
  let jA ← join_network o0 0 201 5000000
  let jB ← join_network jA.oracle jA.oracleLamports 202 5000000
  let o1 ← start_request jB.oracle 100
  let (o2, nA) ← commit o1 jA.node (Hid (hashInput true [3])) 0
  let s ← slash_colluding Hid o2 100 jB.oracleLamports nA 201 0 true [3]
  let (o3, _nB) ← commit o2 jB.node (Hid (hashInput true [4])) 0
  reveal Hid o3 s.node true [3] 5

/-- Round A: a one-node round (key 201) taken through join, commit and
reveal; returns the oracle in `Reveal` phase, the revealed node, and
the oracle account's lamports (the pooled collateral). -/
def roundATrace : Except ErrorCode (Oracle × Node × Nat) := do
  let o0 := init_oracle 100 1000000 3600 1
  let j ← join_network o0 0 201 5000000
  let o1 ← start_request j.oracle 100
  let (o2, n1) ← commit o1 j.node (Hid (hashInput true [1])) 0
  let n1 ← reveal Hid o2 n1 true [1] 5
  .ok (o2, n1, j.oracleLamports)

/-- Round B: an unrelated one-node round (authority 500, node key 301,
different collateral) whose node commits and reveals; returns that
foreign node's record. -/
def roundBTrace : Except ErrorCode Node := do
  let o0 := init_oracle 500 999 7200 1
  let j ← join_network o0 0 301 5000
  let o1 ← start_request j.oracle 500
  let (o2, n1) ← commit o1 j.node (Hid (hashInput true [2])) 0
  reveal Hid o2 n1 true [2] 5

/-- A node commits in a two-node round and is slashed with a valid
collusion proof while its node account holds `0` lamports (the program
never funds the node account, and never checks its balance before the
`-= collateral`). -/
def slashWrapTrace : Except ErrorCode SlashOutcome := do
  let o0 := init_oracle 100 1000000 3600 2
  let j1 ← join_network o0 0 201 5000000
  let j2 ← join_network j1.oracle j1.oracleLamports 202 5000000
  let o1 ← start_request j2.oracle 100
  let (o2, n1) ← commit o1 j1.node (Hid (hashInput true [9])) 0
  slash_colluding Hid o2 100 j2.oracleLamports n1 201 0 true [9]

/-- A one-node round resolved with the same node account passed twice
in `remaining_accounts`: the pool holds one collateral but the payout
loop pays the duplicated entry twice. -/
def duplicatePayTrace : Except ErrorCode ResolveOutcome := do
  let o0 := init_oracle 100 1000000 3600 1
  let j ← join_network o0 0 201 5000000
  let o1 ← start_request j.oracle 100
  let (o2, n1) ← commit o1 j.node (Hid (hashInput true [1])) 0
  let n1 ← reveal Hid o2 n1 true [1] 5
  resolve o2 j.oracleLamports [⟨n1, 0⟩, ⟨n1, 0⟩] 3601

/-- `join_network` invoked by an authority whose balance (0) is below
the collateral (1_000_000). -/
def insolventJoin : Except ErrorCode JoinOutcome :=
  join_network (init_oracle 100 1000000 3600 3) 0 201 0

/-- The oracle of round A as left by `roundATrace`: one joined node,
all commitments in, phase `Reveal` with deadline 3600. -/
def roundAOracle : Oracle :=
  { authority := 100
    collateral := 1000000
    is_resolved := false
    resolution_bit := false
    phase := Phase.Reveal
    reveal_end_time := 3600
    reveal_duration := 3600
    max_nodes := 1
    total_nodes := 1
    committed_nodes := 1 }

/-- Round A's node after committing (before revealing). -/
def committedNode : Node :=
  { authority := 201
    vote_hash := some (hashInput true [1])
    vote := none
    slashed := false }

/-- Round A's node after revealing `true`. -/
def roundANode : Node :=
  { authority := 201
    vote_hash := some (hashInput true [1])
    vote := some true
    slashed := false }

/-- Round B's node after revealing `true`: it joined the unrelated
round B and never joined round A. -/
def foreignNode : Node :=
  { authority := 301
    vote_hash := some (hashInput true [2])
    vote := some true
    slashed := false }

/-!
## Helper lemmas
-/

/-- With the phase, deadline, commitment and not-yet-revealed checks
satisfied, `reveal` reduces to the hash comparison. -/
theorem reveal_eq_check (H : List Nat → List Nat) (o : Oracle) (n : Node)
    (stored : List Nat) (vote : Bool) (nonce : List Nat) (now : Int)
    (hp : o.phase = Phase.Reveal) (ht : now ≤ o.reveal_end_time)
    (hc : n.vote_hash = some stored) (hr : n.vote = none) :
    reveal H o n vote nonce now =
      if H (hashInput vote nonce) = stored then
        .ok { n with vote := some vote }
      else .error .InvalidReveal := by
  simp [reveal, hp, ht, hc, hr]

/-- With its two checks satisfied, `resolve` returns `resolveBody`. -/
theorem resolve_ok (o : Oracle) (ol : Nat) (cs : List NodeAccount)
    (now : Int) (hp : o.phase = Phase.Reveal)
    (ht : o.reveal_end_time < now) :
    resolve o ol cs now = .ok (resolveBody o ol cs) := by
  simp [resolve, hp, ht]

/-- The payout step never touches the `Node` data, only lamports. -/
theorem payNode_node (rb : Bool) (r : Nat) (a : NodeAccount) :
    (payNode rb r a).node = a.node := by
  unfold payNode
  split <;> rfl

/-- A successful `resolve` leaves every candidate's `Node` record
unchanged: in particular it never marks any node slashed and never
clears a slashed flag. -/
theorem resolve_preserves_nodes (o : Oracle) (ol : Nat)
    (cs : List NodeAccount) (now : Int) (r : ResolveOutcome)
    (h : resolve o ol cs now = .ok r) :
    r.nodes.map NodeAccount.node = cs.map NodeAccount.node := by
  unfold resolve at h
  split at h
  · split at h
    · injection h with h
      subst h
      show (cs.map (payNode _ _)).map NodeAccount.node = cs.map NodeAccount.node
      rw [List.map_map]
      exact List.map_congr_left (fun a _ => payNode_node _ _ a)
    · exact absurd h (by simp)
  · exact absurd h (by simp)

/-!
## Claim theorems
-/

/-- C1: the claim says every candidate node account supplied to
`resolve` is verified to belong to the round being resolved, and a
node account not belonging to the round is never counted and never
paid.  The code performs no such check — `Node` carries no reference
to its round at all — so a node account of the unrelated round B
(`foreignNode`, produced by `roundBTrace` and not among round A's
nodes) is counted in round A's tally (`consensus_nodes = 2` instead
of 1) and is paid the full `reward_per_node` of 1_000_000 lamports. -/
theorem c1_resolve_pays_foreign_node :
    roundATrace = .ok (roundAOracle, roundANode, 1000000) ∧
    roundBTrace = .ok foreignNode ∧
    foreignNode ∉ [roundANode] ∧
    (resolve roundAOracle 1000000 [⟨roundANode, 0⟩, ⟨foreignNode, 0⟩]
        3601).map
        (fun r => (r.consensus_nodes, r.reward_per_node,
                   r.nodes.map NodeAccount.lamports)) =
      .ok (2, 1000000, [1000000, 1000000]) :=
  ⟨rfl, rfl, by decide, rfl⟩

/-- C2: the claim says the sum of node balances plus the round pool
changes only by stake injected at Join and rewards paid at Resolve,
that the total paid at Resolve never exceeds the pool, and that the
pool never goes negative.  Two reachable violations: (1) in
`slashWrapTrace`, `slash_colluding` debits a node account holding 0
lamports with an unchecked `u64 -=`, so the account wraps to
`2^64 - 1_000_000` and pool + node balances jump from 2_000_000 to
2_000_000 + 2^64 (the second node account holds 0 before and after);
(2) in `duplicatePayTrace`, `resolve` handed the same node account
twice pays 2_000_000 out of a pool of 1_000_000, and the pool wraps to
`2^64 - 1_000_000` — paid out more than the pool and a (two's
complement) negative pool. -/
theorem c2_conservation_violated :
    slashWrapTrace.map (fun r => r.oracleLamports + r.nodeLamports) =
      .ok 18446744073711551616 ∧
    (18446744073711551616 : Nat) ≠ 2000000 ∧
    duplicatePayTrace.map
        (fun r => (r.reward_per_node, r.nodes.map NodeAccount.lamports,
                   r.oracleLamports)) =
      .ok (1000000, [1000000, 1000000], 18446744073708551616) :=
  ⟨rfl, by decide, rfl⟩

/-- C3 counterexample: the claim says every active node that committed
but never revealed is slashed during `resolve` (its `slashed` flag
set, its stake forfeited at that point).  In `nonRevealTrace` node B
committed and never revealed, yet after `resolve` both nodes' slashed
flags are still `false` — `resolve` contains no slashing code. -/
theorem c3_counterexample_no_slash_at_resolve :
    nonRevealTrace.map (fun r => r.nodes.map (fun a => a.node.slashed)) =
      .ok [false, false] := rfl

/-- C3 amended: `resolve` leaves every candidate's `Node` record
unchanged — unrevealed nodes are not marked slashed and nothing is
moved out of their accounts at that point (their stake already sits in
the pool from `join_network`); instead they are counted in
`total_nodes` but excluded from payment, so the reward formula hands
their pooled stake to the consensus nodes.  In the scenario, node A is
paid 2_000_000 lamports — its own stake plus the entirety of B's
forfeited stake — node B receives nothing, and the pool empties. -/
theorem c3_amended_forfeit_without_flag (o : Oracle) (ol : Nat)
    (cs : List NodeAccount) (now : Int) (r : ResolveOutcome)
    (h : resolve o ol cs now = .ok r) :
    r.nodes.map NodeAccount.node = cs.map NodeAccount.node ∧
    nonRevealTrace.map
        (fun out => (out.nodes.map NodeAccount.lamports,
                     out.oracleLamports)) =
      .ok ([2000000, 0], 0) :=
  ⟨resolve_preserves_nodes o ol cs now r h, rfl⟩

/-- C3 amended witness at a concrete input. -/
theorem c3_amended_witness :
    (resolveBody roundAOracle 0 []).nodes.map NodeAccount.node =
      ([] : List NodeAccount).map NodeAccount.node ∧
    nonRevealTrace.map
        (fun out => (out.nodes.map NodeAccount.lamports,
                     out.oracleLamports)) =
      .ok ([2000000, 0], 0) :=
  c3_amended_forfeit_without_flag roundAOracle 0 [] 3601
    (resolveBody roundAOracle 0 []) rfl

/-- C5 counterexample: the claim says a slashed node cannot act
further — in particular no subsequent Reveal by that node succeeds.
In `slashedRevealTrace`, a node slashed during the Commit phase calls
`reveal` in the Reveal phase within the deadline with its correct
`(vote, nonce)`, and the call succeeds: `reveal` never checks the
`slashed` flag. -/
theorem c5_counterexample_slashed_reveal_succeeds :
    slashedRevealTrace =
      .ok { authority := 201, vote_hash := some (hashInput true [3]),
            vote := some true, slashed := true } := rfl

/-- C6: the claim says `join_network` fails with an insufficient-funds
error when the caller's balance is below the collateral.  The code
performs a raw unchecked `u64` subtraction with no balance check (and
its `ErrorCode` enum has no insufficient-funds variant at all): with
balance 0 and collateral 1_000_000 the join *succeeds*, the caller's
balance wraps to `2^64 - 1_000_000`, the node is created and
`total_nodes` is incremented. -/
theorem c6_insolvent_join_succeeds_with_wrap :
    insolventJoin.map
        (fun r => (r.authorityLamports, r.oracleLamports,
                   r.oracle.total_nodes, r.node)) =
      .ok (18446744073708551616, 1000000, 1,
           { authority := 201, vote_hash := none, vote := none,
             slashed := false }) := rfl

/-- C7 counterexample: the claim says the three-honest-nodes scenario
yields `reward_per_node = 0`.  The code computes `reward_per_node =
collateral * total_nodes / consensus_nodes = 1_000_000 * 3 / 3 =
1_000_000`, not 0. -/
theorem c7_counterexample_reward_is_collateral :
    threeHonestTrace.map (fun r => r.reward_per_node) = .ok 1000000 ∧
    (1000000 : Nat) ≠ 0 := ⟨rfl, by decide⟩

/-- C7 amended: with 3 nodes at collateral 1_000_000 all committing
and revealing `true`, `resolve` yields `resolution_bit = true`,
`consensus_count = 3`, and `reward_per_node = 1_000_000` — the payout
formula returns each node exactly its own stake (there being no
forfeits), so every node account is credited exactly its original
1_000_000 stake and the pool is left empty: no node gains or loses. -/
theorem c7_amended_stake_returned :
    threeHonestTrace.map
        (fun r => (r.oracle.resolution_bit, r.consensus_nodes,
                   r.reward_per_node, r.nodes.map NodeAccount.lamports,
                   r.oracleLamports)) =
      .ok (true, 3, 1000000, [1000000, 1000000, 1000000], 0) := rfl

/-- An oracle in the `Commit` phase of a two-node round with one
commitment in (the state of `slashWrapTrace` at its slash call). -/
def commitOracle : Oracle :=
  { authority := 100
    collateral := 1000000
    is_resolved := false
    resolution_bit := false
    phase := Phase.Commit
    reveal_end_time := 0
    reveal_duration := 3600
    max_nodes := 2
    total_nodes := 2
    committed_nodes := 1 }

/-- A node already slashed once, its commitment still present (the
node account left by `slashWrapTrace`). -/
def slashedCommittedNode : Node :=
  { authority := 201
    vote_hash := some (hashInput true [9])
    vote := none
    slashed := true }

/-- A slashed candidate account that nevertheless carries a revealed
`true` vote (reachable: slash during Commit, then reveal — see
`slashedRevealTrace`). -/
def slashedVoterAcct : NodeAccount :=
  { node := { authority := 201, vote_hash := some (hashInput true [3]),
              vote := some true, slashed := true }
    lamports := 0 }

/-- C4: commitment binding.  Given a node in the Reveal phase within
the deadline that has committed and not revealed: (1) `reveal (vote,
nonce)` succeeds — storing `revealed_vote = vote` — exactly when the
recomputed hash `H([vote as u8] ‖ nonce)` equals the stored 32-byte
commitment byte-for-byte; (2) on any mismatch it fails with
`InvalidReveal`; (3) in particular any altered `(vote2, nonce2)` whose
hash differs from the committed pair's hash (which a bit flip yields,
the hash being collision-resistant) fails with `InvalidReveal`. -/
theorem c4_commitment_binding (H : List Nat → List Nat) (o : Oracle)
    (n : Node) (stored : List Nat) (vote vote2 : Bool)
    (nonce nonce2 : List Nat) (now : Int)
    (hp : o.phase = Phase.Reveal) (ht : now ≤ o.reveal_end_time)
    (hc : n.vote_hash = some stored) (hr : n.vote = none) :
    (reveal H o n vote nonce now = .ok { n with vote := some vote } ↔
      H (hashInput vote nonce) = stored) ∧
    (H (hashInput vote nonce) ≠ stored →
      reveal H o n vote nonce now = .error .InvalidReveal) ∧
    (stored = H (hashInput vote nonce) →
      H (hashInput vote2 nonce2) ≠ H (hashInput vote nonce) →
      reveal H o n vote2 nonce2 now = .error .InvalidReveal) := by
  rw [reveal_eq_check H o n stored vote nonce now hp ht hc hr,
      reveal_eq_check H o n stored vote2 nonce2 now hp ht hc hr]
  refine ⟨⟨fun h => ?_, fun h => by simp [h]⟩, fun h => by simp [h], ?_⟩
  · by_contra hh
    simp [hh] at h
  · intro hst hne
    have h2 : ¬ (H (hashInput vote2 nonce2) = stored) := by
      rw [hst]; exact hne
    simp [h2]

/-- C4 witness at a concrete input. -/
theorem c4_commitment_binding_witness :
    (reveal Hid roundAOracle committedNode true [1] 5 =
        .ok { committedNode with vote := some true } ↔
      Hid (hashInput true [1]) = hashInput true [1]) ∧
    (Hid (hashInput true [1]) ≠ hashInput true [1] →
      reveal Hid roundAOracle committedNode true [1] 5 =
        .error .InvalidReveal) ∧
    (hashInput true [1] = Hid (hashInput true [1]) →
      Hid (hashInput false [1]) ≠ Hid (hashInput true [1]) →
      reveal Hid roundAOracle committedNode false [1] 5 =
        .error .InvalidReveal) :=
  c4_commitment_binding Hid roundAOracle committedNode
    (hashInput true [1]) true false [1] [1] 5 rfl (by decide) rfl rfl

/-- C5 amended: once a node's `slashed` flag is true it stays true (no
instruction clears it: `reveal` copies it, `resolve` leaves every
`Node` record unchanged), its revealed vote is never counted in any
tally, it is never paid at `resolve`, and a subsequent `commit` by it
never succeeds (it fails with `InvalidPhase` outside the Commit phase
and otherwise with `AlreadyCommitted`, a slashed node necessarily
having a commitment); however — contrary to the claim — a subsequent
`reveal` by a slashed node can still succeed, as `reveal` does not
inspect the flag (see the counterexample), harmlessly: the vote it
stores is still never counted nor rewarded. -/
theorem c5_amended_slashed_excluded (o oR o2 : Oracle)
    (n nR n' : Node) (vh nonce : List Nat) (now nowR now2 : Int)
    (H : List Nat → List Nat) (v : Bool) (ol2 : Nat)
    (cs cs2 : List NodeAccount) (r : ResolveOutcome) (a : NodeAccount)
    (rb : Bool) (rw : Nat)
    (hcommitted : n.vote_hash.isSome = true)
    (hrev : reveal H oR nR v nonce nowR = .ok n')
    (hres : resolve o2 ol2 cs now2 = .ok r)
    (hsl : a.node.slashed = true) :
    (commit o n vh now = .error .InvalidPhase ∨
      commit o n vh now = .error .AlreadyCommitted) ∧
    n'.slashed = nR.slashed ∧
    r.nodes.map NodeAccount.node = cs.map NodeAccount.node ∧
    countTrueVotes (a :: cs2) = countTrueVotes cs2 ∧
    countFalseVotes (a :: cs2) = countFalseVotes cs2 ∧
    countActive (a :: cs2) = countActive cs2 ∧
    payNode rb rw a = a := by
  refine ⟨?_, ?_, resolve_preserves_nodes o2 ol2 cs now2 r hres,
          ?_, ?_, ?_, ?_⟩
  · by_cases hph : o.phase = Phase.Commit
    · right
      simp [commit, hph, hcommitted]
    · left
      simp [commit, hph]
  · unfold reveal at hrev
    split at hrev
    · split at hrev
      · split at hrev
        · exact absurd hrev (by simp)
        · split at hrev
          · exact absurd hrev (by simp)
          · split at hrev
            · injection hrev with hrev
              subst hrev
              rfl
            · exact absurd hrev (by simp)
      · exact absurd hrev (by simp)
    · exact absurd hrev (by simp)
  · simp [countTrueVotes, hsl]
  · simp [countFalseVotes, hsl]
  · simp [countActive, hsl]
  · simp [payNode, hsl]

/-- C5 amended witness at concrete inputs. -/
theorem c5_amended_slashed_excluded_witness :
    (commit roundAOracle committedNode [7] 0 = .error .InvalidPhase ∨
      commit roundAOracle committedNode [7] 0 =
        .error .AlreadyCommitted) ∧
    roundANode.slashed = committedNode.slashed ∧
    (resolveBody roundAOracle 0 []).nodes.map NodeAccount.node =
      ([] : List NodeAccount).map NodeAccount.node ∧
    countTrueVotes (slashedVoterAcct :: []) = countTrueVotes [] ∧
    countFalseVotes (slashedVoterAcct :: []) = countFalseVotes [] ∧
    countActive (slashedVoterAcct :: []) = countActive [] ∧
    payNode true 5 slashedVoterAcct = slashedVoterAcct :=
  c5_amended_slashed_excluded roundAOracle roundAOracle roundAOracle
    committedNode committedNode roundANode [7] [1] 0 5 3601 Hid true 0
    [] [] (resolveBody roundAOracle 0 []) slashedVoterAcct true 5
    rfl rfl rfl rfl

/-- C8: the reveal deadline is inclusive.  With every other
precondition met, a `reveal` at `now = reveal_end_time` succeeds, and
a `reveal` at `now = reveal_end_time + 1` fails with
`RevealPhaseClosed`. -/
theorem c8_deadline_inclusive (H : List Nat → List Nat) (o : Oracle)
    (n : Node) (vote : Bool) (nonce : List Nat)
    (hp : o.phase = Phase.Reveal)
    (hc : n.vote_hash = some (H (hashInput vote nonce)))
    (hr : n.vote = none) :
    reveal H o n vote nonce o.reveal_end_time =
      .ok { n with vote := some vote } ∧
    reveal H o n vote nonce (o.reveal_end_time + 1) =
      .error .RevealPhaseClosed := by
  constructor
  · rw [reveal_eq_check H o n _ vote nonce _ hp le_rfl hc hr]
    simp
  · have h1 : ¬ (o.reveal_end_time + 1 ≤ o.reveal_end_time) := by omega
    simp [reveal, hp, h1]

/-- C8 witness at a concrete input. -/
theorem c8_deadline_inclusive_witness :
    reveal Hid roundAOracle committedNode true [1] 3600 =
      .ok { committedNode with vote := some true } ∧
    reveal Hid roundAOracle committedNode true [1] 3601 =
      .error .RevealPhaseClosed :=
  c8_deadline_inclusive Hid roundAOracle committedNode true [1]
    rfl rfl rfl

/-- C9: for every candidate snapshot, a successful `resolve` sets
`resolution_bit = (true_votes > false_votes)` over the revealed votes
of non-slashed candidates, and a tie yields `false`. -/
theorem c9_majority_tally (o : Oracle) (ol : Nat)
    (cs : List NodeAccount) (now : Int)
    (hp : o.phase = Phase.Reveal) (ht : o.reveal_end_time < now) :
    ∃ r, resolve o ol cs now = .ok r ∧
      r.oracle.resolution_bit =
        decide (countFalseVotes cs < countTrueVotes cs) ∧
      (countTrueVotes cs = countFalseVotes cs →
        r.oracle.resolution_bit = false) := by
  refine ⟨resolveBody o ol cs, resolve_ok o ol cs now hp ht, rfl, ?_⟩
  intro h
  show decide (countFalseVotes cs < countTrueVotes cs) = false
  simp [h]

/-- C9 witness at a concrete input. -/
theorem c9_majority_tally_witness :
    ∃ r, resolve roundAOracle 0 [] 3601 = .ok r ∧
      r.oracle.resolution_bit =
        decide (countFalseVotes [] < countTrueVotes []) ∧
      (countTrueVotes [] = countFalseVotes [] →
        r.oracle.resolution_bit = false) :=
  c9_majority_tally roundAOracle 0 [] 3601 rfl (by decide)

/-- C10: `slash_colluding` never checks whether its target is already
slashed: in the Commit phase, against a node whose `slashed` flag is
already true but whose commitment is still present, a call with the
matching `(vote, nonce)` proof succeeds again — debiting another
`collateral` from the node account's balance (wrapping `u64`
subtraction) and emitting another `NodeSlashed` event. -/
theorem c10_reslash_succeeds (H : List Nat → List Nat) (o : Oracle)
    (okey ol : Nat) (n : Node) (nkey nl : Nat) (vote : Bool)
    (nonce : List Nat)
    (hp : o.phase = Phase.Commit) (hsl : n.slashed = true)
    (hc : n.vote_hash = some (H (hashInput vote nonce))) :
    slash_colluding H o okey ol n nkey nl vote nonce =
      .ok { node := { n with slashed := true }
            nodeLamports := wsub nl o.collateral
            oracleLamports := wadd ol o.collateral
            event := { oracle := okey, slashed_node := nkey } } := by
  simp [slash_colluding, hp, hc]

/-- C10 witness: the node account left by `slashWrapTrace` (already
slashed, balance already wrapped) is slashed a second time. -/
theorem c10_reslash_succeeds_witness :
    slash_colluding Hid commitOracle 100 3000000 slashedCommittedNode
        201 18446744073708551616 true [9] =
      .ok { node := { slashedCommittedNode with slashed := true }
            nodeLamports := wsub 18446744073708551616 1000000
            oracleLamports := wadd 3000000 1000000
            event := { oracle := 100, slashed_node := 201 } } :=
  c10_reslash_succeeds Hid commitOracle 100 3000000
    slashedCommittedNode 201 18446744073708551616 true [9] rfl rfl rfl
